import Mathlib

/-!
Verification of the CLI entry point `src/cli/__main__.py` of
commercial-marketplace-offer-deploy.

The module defines a click command group `cli` whose callback body is
`pass`, registers the single subcommand `build` (imported from the
`commands` module, which is not part of the supplied source), and calls
the group under the `if __name__ == '__main__'` guard.

The embedding below models the group, the registration, click's group
dispatch, and the module-level execution order.  The subcommand `build`
is spec-modelled: only its registered name is known, its behavior is a
parameter.  Programs act on an abstract ambient state `σ` so that frame
properties of the entry point can be stated, and a subcommand invocation
yields either a raised error (of abstract type `ε`) or an exit status.
-/

namespace ModmCli

variable {ε σ : Type}

/-- A registered click command: a name and its invocation, which takes
the remaining command-line arguments and the ambient state and produces
either a raised error or an exit status, together with the new state. -/
structure Command (ε σ : Type) where
  name : String
  run : List String → σ → Except ε Int × σ

/-- A click command group: its name, its help text (the docstring), the
option parameters declared on it, its own callback body, and its list of
registered subcommands. -/
structure Group (ε σ : Type) where
  name : String
  help : String
  params : List String
  groupCallback : σ → σ
  commands : List (Command ε σ)

/-- `@click.group()` applied to `def cli(): pass` (src/cli/__main__.py
lines 6-9): a group named `cli` carrying the module docstring, declaring
no options of its own, whose callback body does nothing (`pass`), with
no subcommands registered yet. -/
def cliGroupDef (ε σ : Type) : Group ε σ :=
  { name := "cli"
  , help := "Commercial Marketplace Offer Deployment Manager (MODM) CLI that exposes application packaging"
  , params := []
  , groupCallback := fun s => s
  , commands := [] }

/-- click's `Group.add_command`: appends a subcommand to the group's
registry. -/
def Group.add_command (g : Group ε σ) (c : Command ε σ) : Group ε σ :=
  { g with commands := g.commands ++ [c] }

/-- Modelled from the spec: the `build` callable imported from the
`commands` module, which is absent from the supplied source.  The spec
fixes only its registered name, `build`, and leaves its behavior
unspecified, so the behavior is the parameter `run`. -/
def build (run : List String → σ → Except ε Int × σ) : Command ε σ :=
  { name := "build", run := run }

/-- The wired-up group after `cli.add_command(build)`
(src/cli/__main__.py line 12). -/
def cli (run : List String → σ → Except ε Int × σ) : Group ε σ :=
  (cliGroupDef ε σ).add_command (build run)

/-- The subcommand names the group's help output lists in its Commands
section. -/
def Group.listCommands (g : Group ε σ) : List String :=
  g.commands.map (fun c => c.name)

/-- Look up a registered subcommand by name (click's `get_command`). -/
def Group.getCommand (g : Group ε σ) (nm : String) : Option (Command ε σ) :=
  g.commands.find? (fun c => c.name == nm)

/-- A command-line token beginning with `-` is treated by the option
parser as an option, never as a subcommand name. -/
def isOptionToken (a : String) : Bool :=
  match a.data with
  | List.cons c _ => c == '-'
  | List.nil => false

/-- Observable outcome of one program invocation: help shown (listing
the given subcommand names, exit 0), a subcommand dispatched on the
remaining arguments together with its result, or a usage error carrying
its message (exit 2). -/
inductive Outcome (ε : Type) where
  | help (subcommands : List String)
  | ran (cmd : String) (args : List String) (res : Except ε Int)
  | usage (message : String)

/-- Modelled from the spec: the dispatch the external CLI framework
(click) performs when the group is called.  With no arguments the group
prints its help; `--help` prints the same help; any other token starting
with `-` is an unknown option, a usage error; a token naming a
registered subcommand runs the group callback and then that subcommand
on the remaining arguments; any other token is an unknown command, a
usage error. -/
def Group.main (g : Group ε σ) (argv : List String) (s : σ) : Outcome ε × σ :=
  match argv with
  | List.nil => (Outcome.help g.listCommands, s)
  | List.cons a rest =>
    if a = "--help" then (Outcome.help g.listCommands, s)
    else if isOptionToken a then (Outcome.usage ("No such option: " ++ a), s)
    else
      match g.getCommand a with
      | Option.some c =>
        let p := c.run rest (g.groupCallback s)
        (Outcome.ran c.name rest p.1, p.2)
      | Option.none => (Outcome.usage ("No such command " ++ a ++ "."), s)

/-- The process exit status an outcome determines: help exits 0, a usage
error exits 2, and a dispatched subcommand's status (or raised error)
passes through unchanged. -/
def Outcome.exitStatus : Outcome ε → Except ε Int
  | Outcome.help _ => Except.ok 0
  | Outcome.ran _ _ r => r
  | Outcome.usage _ => Except.ok 2

/-- The dispatch decision an outcome records, forgetting everything the
subcommand itself produced. -/
inductive Decision where
  | helpShown
  | dispatchedTo (cmd : String) (args : List String)
  | usageError
deriving DecidableEq

/-- Which branch of the dispatch an outcome took. -/
def Outcome.decision : Outcome ε → Decision
  | Outcome.help _ => Decision.helpShown
  | Outcome.ran c a _ => Decision.dispatchedTo c a
  | Outcome.usage _ => Decision.usageError

/-- The exit status the entry point itself contributes: 0 for help, 2
for a usage error, and none when a subcommand was dispatched (the status
is then the subcommand's, not the entry point's). -/
def Outcome.entryExit : Outcome ε → Option Int
  | Outcome.help _ => Option.some 0
  | Outcome.ran _ _ _ => Option.none
  | Outcome.usage _ => Option.some 2

/-- The three module-level execution steps of `src/cli/__main__.py`:
defining the group (lines 6-9), attaching `build` (line 12), and
calling the group (line 15). -/
inductive Step where
  | defineGroup
  | attachBuild
  | invokeGroup
deriving DecidableEq

/-- Executing the module under Python semantics: the group definition
and the `cli.add_command(build)` call always run, in that order, and
`cli()` runs only under the `if __name__ == '__main__'` guard
(src/cli/__main__.py lines 14-15). -/
def moduleExec (moduleName : String) : List Step :=
  List.cons Step.defineGroup (List.cons Step.attachBuild
    (if moduleName = "__main__" then [Step.invokeGroup] else []))

theorem getCommand_cli (run : List String → σ → Except ε Int × σ) (a : String) :
    (cli run).getCommand a =
      if a = "build" then Option.some (build run) else Option.none := by
  by_cases h : a = "build"
  · simp [cli, Group.getCommand, Group.add_command, cliGroupDef, build, List.find?, h]
  · have hb : ("build" == a) = false := beq_eq_false_iff_ne.mpr (fun hh => h hh.symm)
    simp [cli, Group.getCommand, Group.add_command, cliGroupDef, build, List.find?, h, hb]

/-- A concrete stand-in subcommand behavior that always succeeds with
exit status 0 and leaves the state unchanged. -/
def okRun (_ : List String) (s : Unit) : Except Unit Int × Unit :=
  (Except.ok 0, s)

/-- A concrete stand-in subcommand behavior that always raises an
error and leaves the state unchanged. -/
def errRun (_ : List String) (s : Unit) : Except Unit Int × Unit :=
  (Except.error (), s)

/-- C1: invoking the program with no arguments or with `--help` succeeds
(exit status 0) and shows the group's help, whose Commands section lists
exactly one subcommand, named `build`; no other subcommand is registered
on the group. -/
theorem C1_help_lists_only_build (ε σ : Type)
    (run : List String → σ → Except ε Int × σ) (s : σ) :
    ((cli run).main [] s).1 = Outcome.help ["build"] ∧
    ((cli run).main ["--help"] s).1 = Outcome.help ["build"] ∧
    ((cli run).main [] s).1.exitStatus = Except.ok 0 ∧
    ((cli run).main ["--help"] s).1.exitStatus = Except.ok 0 ∧
    (cli run).listCommands = ["build"] :=
  ⟨rfl, rfl, rfl, rfl, rfl⟩

/-- C2: every argument vector whose first argument is `build` dispatches
to the registered `build` callable with the remaining arguments (through
the no-op group callback), and no other registered callable is
invoked — the recorded dispatch names `build` and the result and state
are exactly those the `build` behavior produces. -/
theorem C2_build_dispatch (ε σ : Type)
    (run : List String → σ → Except ε Int × σ) (rest : List String) (s : σ) :
    (cli run).main (List.cons "build" rest) s =
      (Outcome.ran "build" rest (run rest s).1, (run rest s).2) :=
  rfl

/-- C3: every argument vector whose first argument is a subcommand name
other than `build` (not an option token and not `--help`) ends in a
usage error naming the unknown command, with exit status 2, which is
nonzero. -/
theorem C3_unknown_subcommand (ε σ : Type)
    (run : List String → σ → Except ε Int × σ) (a : String) (rest : List String) (s : σ)
    (hbuild : a ≠ "build") (hhelp : a ≠ "--help") (hopt : isOptionToken a = false) :
    ((cli run).main (List.cons a rest) s).1 =
      Outcome.usage ("No such command " ++ a ++ ".") ∧
    ((cli run).main (List.cons a rest) s).1.exitStatus = Except.ok 2 ∧ (2 : Int) ≠ 0 := by
  have hg := getCommand_cli run a
  rw [if_neg hbuild] at hg
  refine ⟨?_, ?_, by decide⟩
  · simp [Group.main, hhelp, hopt, hg]
  · simp [Group.main, hhelp, hopt, hg, Outcome.exitStatus]

/-- C3 witness at the concrete unknown subcommand `deploy`. -/
theorem C3_unknown_subcommand_witness :
    ((cli okRun).main ["deploy"] ()).1 =
      Outcome.usage ("No such command " ++ "deploy" ++ ".") ∧
    ((cli okRun).main ["deploy"] ()).1.exitStatus = Except.ok 2 ∧ (2 : Int) ≠ 0 :=
  C3_unknown_subcommand Unit Unit okRun "deploy" [] () (by decide) (by decide) rfl

/-- C4: when the `build` subcommand is selected and runs, the process
exit status is exactly the status the invoked `build` behavior produced;
the entry point does not alter it. -/
theorem C4_exit_status_propagated (ε σ : Type)
    (run : List String → σ → Except ε Int × σ) (rest : List String) (s : σ) :
    ((cli run).main (List.cons "build" rest) s).1.exitStatus = (run rest s).1 :=
  rfl

/-- C5: the group declares no options of its own, and at the group level
only the framework's built-in `--help` is recognized: any other option
token is a usage error. -/
theorem C5_no_own_options (ε σ : Type)
    (run : List String → σ → Except ε Int × σ) (a : String) (rest : List String) (s : σ)
    (hopt : isOptionToken a = true) (hhelp : a ≠ "--help") :
    (cli run).params = [] ∧
    ((cli run).main (List.cons a rest) s).1 = Outcome.usage ("No such option: " ++ a) ∧
    ((cli run).main ["--help"] s).1 = Outcome.help ["build"] := by
  refine ⟨rfl, ?_, rfl⟩
  simp [Group.main, hhelp, hopt]

/-- C5 witness at the concrete undeclared option `-x`. -/
theorem C5_no_own_options_witness :
    (cli okRun).params = [] ∧
    ((cli okRun).main ["-x"] ()).1 = Outcome.usage ("No such option: " ++ "-x") ∧
    ((cli okRun).main ["--help"] ()).1 = Outcome.help ["build"] :=
  C5_no_own_options Unit Unit okRun "-x" [] () rfl (by decide)

/-- C6: running the module as `__main__` calls the group exactly once,
and the two declaration steps (defining the group, attaching `build`)
both precede that call. -/
theorem C6_main_guard_runs_group_once :
    moduleExec "__main__" = [Step.defineGroup, Step.attachBuild, Step.invokeGroup] ∧
    (moduleExec "__main__").count Step.invokeGroup = 1 ∧
    (moduleExec "__main__").indexOf Step.defineGroup <
      (moduleExec "__main__").indexOf Step.invokeGroup ∧
    (moduleExec "__main__").indexOf Step.attachBuild <
      (moduleExec "__main__").indexOf Step.invokeGroup := by
  decide

/-- C7: the entry point catches nothing: an error raised by the
delegated `build` behavior propagates through the entry point
unmodified. -/
theorem C7_error_propagates (ε σ : Type)
    (run : List String → σ → Except ε Int × σ) (rest : List String) (s : σ) (e : ε)
    (h : (run rest s).1 = Except.error e) :
    ((cli run).main (List.cons "build" rest) s).1.exitStatus = Except.error e := by
  have h2 := C4_exit_status_propagated ε σ run rest s
  rw [h2, h]

/-- C7 witness with a concrete always-raising `build` behavior. -/
theorem C7_error_propagates_witness :
    ((cli errRun).main ["build"] ()).1.exitStatus = Except.error () :=
  C7_error_propagates Unit Unit errRun [] () () rfl

/-- C8: the entry point performs no side effects of its own: the group
callback body is the identity on any ambient state, and for every
argument vector the final state is either unchanged (help, usage error)
or exactly the state produced by the delegated `build` behavior. -/
theorem C8_no_own_side_effects (ε σ : Type)
    (run : List String → σ → Except ε Int × σ) (argv : List String) (s : σ) :
    (∀ t : σ, (cli run).groupCallback t = t) ∧
    (((cli run).main argv s).2 = s ∨
      ∃ rest, argv = List.cons "build" rest ∧
        ((cli run).main argv s).2 = (run rest s).2) := by
  refine ⟨fun t => rfl, ?_⟩
  match argv with
  | List.nil => exact Or.inl rfl
  | List.cons a rest =>
    by_cases hhelp : a = "--help"
    · subst hhelp; exact Or.inl rfl
    · by_cases hopt : isOptionToken a = true
      · left; simp [Group.main, hhelp, hopt]
      · by_cases hbuild : a = "build"
        · subst hbuild
          exact Or.inr ⟨rest, rfl, rfl⟩
        · left
          have hg := getCommand_cli run a
          rw [if_neg hbuild] at hg
          simp [Group.main, hhelp, hopt, hg]

/-- C9: importing the module under any name other than `__main__` only
defines the group and registers `build`: the group is never invoked. -/
theorem C9_import_has_no_cli_effect (moduleName : String)
    (h : moduleName ≠ "__main__") :
    moduleExec moduleName = [Step.defineGroup, Step.attachBuild] ∧
    ¬ Step.invokeGroup ∈ moduleExec moduleName := by
  refine ⟨?_, ?_⟩ <;> simp [moduleExec, h]

/-- C9 witness at the concrete import name `cli.commands`. -/
theorem C9_import_has_no_cli_effect_witness :
    moduleExec "cli.commands" = [Step.defineGroup, Step.attachBuild] ∧
    ¬ Step.invokeGroup ∈ moduleExec "cli.commands" :=
  C9_import_has_no_cli_effect "cli.commands" (by decide)

/-- C10: dispatch is deterministic and depends only on the argument
vector: two runs with arbitrary (even different) `build` behaviors and
ambient states take the same dispatch branch, and the entry point
contributes the same exit status. -/
theorem C10_dispatch_depends_only_on_argv (ε₁ σ₁ ε₂ σ₂ : Type)
    (run₁ : List String → σ₁ → Except ε₁ Int × σ₁)
    (run₂ : List String → σ₂ → Except ε₂ Int × σ₂)
    (argv : List String) (s₁ : σ₁) (s₂ : σ₂) :
    ((cli run₁).main argv s₁).1.decision = ((cli run₂).main argv s₂).1.decision ∧
    ((cli run₁).main argv s₁).1.entryExit = ((cli run₂).main argv s₂).1.entryExit := by
  match argv with
  | List.nil => exact ⟨rfl, rfl⟩
  | List.cons a rest =>
    by_cases hhelp : a = "--help"
    · subst hhelp; exact ⟨rfl, rfl⟩
    · by_cases hopt : isOptionToken a = true
      · constructor <;>
          simp [Group.main, hhelp, hopt, Outcome.decision, Outcome.entryExit]
      · by_cases hbuild : a = "build"
        · subst hbuild; exact ⟨rfl, rfl⟩
        · have hg₁ := getCommand_cli run₁ a
          have hg₂ := getCommand_cli run₂ a
          rw [if_neg hbuild] at hg₁
          rw [if_neg hbuild] at hg₂
          constructor <;>
            simp [Group.main, hhelp, hopt, hg₁, hg₂, Outcome.decision, Outcome.entryExit]

end ModmCli
